import Mathlib

/-!
Shallow embedding of the Hungry-Hippo game core: the Scoreboard score
ledger (Scoreboard.ts) and the Game scene's collision, spawning and
network-relay logic (Game.ts).  JavaScript string-keyed objects are
modelled as insertion-ordered association lists.  JavaScript numbers
stored in the Game scene's score record are modelled as integers plus a
NaN marker, because the unguarded `+=` in Game.handleFruitCollision
yields NaN when the key is missing.
-/

/-- A JavaScript object used as a string-keyed record, kept in insertion
order. -/
abbrev JsRecord (α : Type) : Type := List (String × α)

/-- Property read `obj[k]`: the value at the matching key, if any. -/
def lookupKey {α : Type} : JsRecord α → String → Option α
  | [], _ => none
  | (k', v) :: r, k => if k' = k then some v else lookupKey r k

/-- The JavaScript `k in obj` membership test. -/
def hasKey {α : Type} (r : JsRecord α) (k : String) : Bool :=
  (lookupKey r k).isSome

/-- Property write `obj[k] = v`: updates the entry in place when the key
is present (insertion order kept), otherwise appends a new entry. -/
def setKey {α : Type} : JsRecord α → String → α → JsRecord α
  | [], k, v => [(k, v)]
  | (k', v') :: r, k, v => if k' = k then (k, v) :: r else (k', v') :: setKey r k v

/-- A JavaScript number as it can appear in the Game scene's score
record: an integer, or NaN (produced by arithmetic on undefined). -/
inductive JsNum where
  | num (n : Int)
  | nan
deriving DecidableEq, Repr

/-- The Scoreboard class of Scoreboard.ts: the Score Ledger.  Only the
data is modelled; the scene text object is presentation. -/
structure Scoreboard where
  playerScores : JsRecord Int
deriving DecidableEq, Repr

/-- Scoreboard.addPlayer: initializes the player's score to 0 unless the
id is already present, in which case nothing happens. -/
def Scoreboard.addPlayer (sb : Scoreboard) (playerId : String) : Scoreboard :=
  if hasKey sb.playerScores playerId then sb
  else { playerScores := setKey sb.playerScores playerId 0 }

/-- Scoreboard.incrementScore: initializes a missing id to 0, then adds
`amount` (the source default for `amount` is 1) with no clamping. -/
def Scoreboard.incrementScore (sb : Scoreboard) (playerId : String) (amount : Int) : Scoreboard :=
  match lookupKey sb.playerScores playerId with
  | some v => { playerScores := setKey sb.playerScores playerId (v + amount) }
  | none => { playerScores := setKey (setKey sb.playerScores playerId 0) playerId (0 + amount) }

/-- Scoreboard.setScore: unconditional overwrite of one entry. -/
def Scoreboard.setScore (sb : Scoreboard) (playerId : String) (newScore : Int) : Scoreboard :=
  { playerScores := setKey sb.playerScores playerId newScore }

/-- Modelled from the spec: `getScore` is called by Game.update but no
such method appears in src Scoreboard.ts; spec section 4.3 says
`getScore(id)` returns 0 for an unknown id rather than failing. -/
def Scoreboard.getScore (sb : Scoreboard) (playerId : String) : Int :=
  (lookupKey sb.playerScores playerId).getD 0

/-- Modelled from the spec: the Score Ledger exposes no decrement method
in src (the clamp rule appears only in Game.handleFruitCollision, on the
Game scene's own record); spec section 4.3 specifies decrement via the
resolver's clamp rule, newScore = max(0, oldScore - 1), reading through
the zero-defaulting `getScore`. -/
def Scoreboard.decrementScore (sb : Scoreboard) (playerId : String) : Scoreboard :=
  { playerScores := setKey sb.playerScores playerId (max 0 (sb.getScore playerId - 1)) }

/-- An outbound network message produced by `this.sendMessageToServer`
in Game.handleFruitCollision: the scoreUpdate message with the acting
player id and a full snapshot of the Game scene's score record. -/
structure OutMsg where
  playerId : String
  scores : JsRecord JsNum
deriving DecidableEq, Repr

/-- An event emitted on the EventBus by Game.handleFruitCollision. -/
inductive GameEvent where
  | scoreUpdate (scores : JsRecord JsNum)
  | fruitEaten (foodId : String) (x : Int) (y : Int)
deriving DecidableEq, Repr

/-- The shape of the object reaching the fruit-collision handler, as the
runtime type checks in Game.ts distinguish it: a Sprite with a texture
key (real food items: the foods group's default class is an Arcade
Sprite), a game object that has a texture but is not a Sprite (an Image),
or a plain game object without a texture. -/
inductive FoodObj where
  | sprite (key : String) (x : Int) (y : Int)
  | texturedNonSprite (key : String) (x : Int) (y : Int)
  | plainGO
deriving DecidableEq, Repr

/-- The raw second argument of a physics overlap callback: a GameObject,
a Body-like object carrying an optional `gameObject` reference, or a
tile-like object with neither a texture nor a `gameObject` property. -/
inductive OverlapObj where
  | go (o : FoodObj)
  | body (gameObject : Option FoodObj)
  | tile
deriving DecidableEq, Repr

/-- The Game scene's state, restricted to what the core logic reads and
writes: the Scoreboard instance, the scene's own `playerScores` record,
the current target food id (null before the first setTargetFood), whether
`sendMessageToServer` has been attached, the keys of `this.players`, and
the spawn-timer reference.  `activeSpawnTimers` counts how many repeating
timers have been registered with `this.time.addEvent`, observing the
single-timer invariant. -/
structure GameState where
  scoreboard : Scoreboard
  playerScores : JsRecord JsNum
  currentTargetFoodId : Option String
  sendMessageAttached : Bool
  players : List String
  foodSpawnTimer : Bool
  activeSpawnTimers : Nat
deriving DecidableEq, Repr

/-- The result of one collision-handler invocation: the updated scene
state, whether `destroy()` was called on the colliding object, the events
emitted on the EventBus, and the messages sent to the server. -/
structure FruitOut where
  g : GameState
  destroyed : Bool
  events : List GameEvent
  msgs : List OutMsg
deriving DecidableEq, Repr

/-- `this.playerScores[playerId] += 1`: a missing key reads as undefined
and undefined + 1 is NaN. -/
def jsIncOne (r : JsRecord JsNum) (p : String) : JsRecord JsNum :=
  match lookupKey r p with
  | some (JsNum.num n) => setKey r p (JsNum.num (n + 1))
  | some JsNum.nan => setKey r p JsNum.nan
  | none => setKey r p JsNum.nan

/-- `this.playerScores[playerId] = Math.max(0, this.playerScores[playerId] - 1)`:
Math.max(0, NaN) is NaN, and a missing key reads as undefined. -/
def jsDecClamp (r : JsRecord JsNum) (p : String) : JsRecord JsNum :=
  match lookupKey r p with
  | some (JsNum.num n) => setKey r p (JsNum.num (max 0 (n - 1)))
  | some JsNum.nan => setKey r p JsNum.nan
  | none => setKey r p JsNum.nan

/-- Game.handleFruitCollision: destroys the fruit unconditionally, then,
only if the object has a texture and is a Sprite, compares its texture
key with `currentTargetFoodId` (a null target never equals a string key),
applies the increment or the clamped decrement to the scene's
`playerScores`, emits the scoreUpdate event with a snapshot copy, sends
the scoreUpdate message if a sender is attached, and emits fruit-eaten. -/
def Game.handleFruitCollision (g : GameState) (playerId : String) (fruit : FoodObj) : FruitOut :=
  match fruit with
  | FoodObj.sprite key x y =>
      let scoresNew :=
        if g.currentTargetFoodId = some key then jsIncOne g.playerScores playerId
        else jsDecClamp g.playerScores playerId
      { g := { g with playerScores := scoresNew }
        destroyed := true
        events := [GameEvent.scoreUpdate scoresNew, GameEvent.fruitEaten key x y]
        msgs := if g.sendMessageAttached then [{ playerId := playerId, scores := scoresNew }] else [] }
  | FoodObj.texturedNonSprite _ _ _ =>
      { g := g, destroyed := true, events := [], msgs := [] }
  | FoodObj.plainGO =>
      { g := g, destroyed := true, events := [], msgs := [] }

/-- Game.handleFoodCollision (the hippo overlap callback): casts the
object to a Sprite and proceeds only when `food && food.texture` is
truthy, destroying it and delegating to handleFruitCollision as 'host';
bodies, tiles and untextured game objects are skipped entirely. -/
def Game.handleFoodCollision (g : GameState) (foodObj : OverlapObj) : FruitOut :=
  match foodObj with
  | OverlapObj.go (FoodObj.sprite k x y) =>
      Game.handleFruitCollision g "host" (FoodObj.sprite k x y)
  | OverlapObj.go (FoodObj.texturedNonSprite k x y) =>
      Game.handleFruitCollision g "host" (FoodObj.texturedNonSprite k x y)
  | _ => { g := g, destroyed := false, events := [], msgs := [] }

/-- The per-player overlap callback registered in Game.addPlayer: it
narrows the raw argument to a GameObject (directly, or through a body's
`gameObject` reference) and, when one is found, calls
handleFruitCollision for that player; otherwise nothing happens. -/
def Game.playerOverlapCallback (g : GameState) (playerId : String) (fruit : OverlapObj) : FruitOut :=
  match fruit with
  | OverlapObj.go o => Game.handleFruitCollision g playerId o
  | OverlapObj.body (some o) => Game.handleFruitCollision g playerId o
  | OverlapObj.body none => { g := g, destroyed := false, events := [], msgs := [] }
  | OverlapObj.tile => { g := g, destroyed := false, events := [], msgs := [] }

/-- Game.setTargetFood. -/
def Game.setTargetFood (g : GameState) (foodId : String) : GameState :=
  { g with currentTargetFoodId := some foodId }

/-- Game.setSendMessage: attaches the outbound send function. -/
def Game.setSendMessage (g : GameState) : GameState :=
  { g with sendMessageAttached := true }

/-- Game.startSpawningFood: registers the repeating 1500ms spawn timer
with `this.time.addEvent` only when `this.foodSpawnTimer` is still unset
(a TimerEvent object is always truthy once stored). -/
def Game.startSpawningFood (g : GameState) : GameState :=
  if g.foodSpawnTimer then g
  else { g with foodSpawnTimer := true, activeSpawnTimers := g.activeSpawnTimers + 1 }

/-- Game.addPlayer: always calls scoreboard.addPlayer and assigns
`this.playerScores[playerId] = 0`; the sprite, its overlap callback and
the score label are created only when the id is not yet in
`this.players`. -/
def Game.addPlayer (g : GameState) (playerId : String) (_x : Int) (_y : Int) : GameState :=
  let withScore := { g with
    scoreboard := g.scoreboard.addPlayer playerId
    playerScores := setKey g.playerScores playerId (JsNum.num 0) }
  if playerId ∈ g.players then withScore
  else { withScore with players := g.players ++ [playerId] }

/-- The EventBus 'external-score-update' handler registered in
Game.create: for every entry of the received snapshot, overwrite that
entry of the Scoreboard via setScore.  Ids absent from the snapshot are
not touched. -/
def Game.externalScoreUpdate (sb : Scoreboard) (scores : JsRecord Int) : Scoreboard :=
  scores.foldl (fun acc kv => acc.setScore kv.1 kv.2) sb

/-- The scene state right after Game.create: the Scoreboard holds the
host entry, `playerScores` maps host to 0, no target has been set, no
sender is attached, and no spawn timer runs. -/
def initialGameState : GameState :=
  { scoreboard := Scoreboard.addPlayer { playerScores := [] } "host"
    playerScores := setKey [] "host" (JsNum.num 0)
    currentTargetFoodId := none
    sendMessageAttached := false
    players := []
    foodSpawnTimer := false
    activeSpawnTimers := 0 }

/-- One externally triggered step of the Game scene: the public API
calls, the two overlap callbacks, and the arrival of a remote
scoreUpdate message on the EventBus. -/
inductive GameAction where
  | addPlayer (playerId : String) (x : Int) (y : Int)
  | setTargetFood (foodId : String)
  | setSendMessage
  | startSpawningFood
  | hippoOverlap (obj : OverlapObj)
  | playerOverlap (playerId : String) (obj : OverlapObj)
  | remoteScoreUpdate (scores : JsRecord Int)
deriving DecidableEq, Repr

/-- Whether an action is the arrival of a remote scoreUpdate message. -/
def GameAction.isRemote : GameAction → Bool
  | GameAction.remoteScoreUpdate _ => true
  | _ => false

/-- One step of the scene: the successor state and the outbound messages
sent during the step. -/
def Game.step (g : GameState) : GameAction → GameState × List OutMsg
  | GameAction.addPlayer pid x y => (Game.addPlayer g pid x y, [])
  | GameAction.setTargetFood f => (Game.setTargetFood g f, [])
  | GameAction.setSendMessage => (Game.setSendMessage g, [])
  | GameAction.startSpawningFood => (Game.startSpawningFood g, [])
  | GameAction.hippoOverlap obj =>
      ((Game.handleFoodCollision g obj).g, (Game.handleFoodCollision g obj).msgs)
  | GameAction.playerOverlap pid obj =>
      ((Game.playerOverlapCallback g pid obj).g, (Game.playerOverlapCallback g pid obj).msgs)
  | GameAction.remoteScoreUpdate s =>
      ({ g with scoreboard := Game.externalScoreUpdate g.scoreboard s }, [])

/-- Run a list of actions, collecting all outbound messages in order. -/
def Game.run (g : GameState) : List GameAction → GameState × List OutMsg
  | [] => (g, [])
  | a :: acts =>
      let p := Game.step g a
      let q := Game.run p.1 acts
      (q.1, p.2 ++ q.2)

theorem lookupKey_setKey_self {α : Type} (r : JsRecord α) (k : String) (v : α) :
    lookupKey (setKey r k v) k = some v := by
  induction r with
  | nil => simp [setKey, lookupKey]
  | cons kv r ih =>
      by_cases h : kv.1 = k
      · simp [setKey, lookupKey, h]
      · simp [setKey, lookupKey, h, ih]

theorem lookupKey_setKey_ne {α : Type} (r : JsRecord α) (k k' : String) (v : α)
    (h : k' ≠ k) : lookupKey (setKey r k v) k' = lookupKey r k' := by
  have h' : ¬ k = k' := fun hh => h hh.symm
  induction r with
  | nil => simp [setKey, lookupKey, h']
  | cons kv r ih =>
      by_cases hk : kv.1 = k
      · have hk' : ¬ kv.1 = k' := by rw [hk]; exact h'
        simp [setKey, lookupKey, hk, h, h', hk']
      · by_cases hk' : kv.1 = k'
        · simp [setKey, lookupKey, hk, hk', h, h']
        · simp [setKey, lookupKey, hk, hk', ih]

theorem setKey_of_lookupKey_eq {α : Type} (r : JsRecord α) (k : String) (v : α)
    (h : lookupKey r k = some v) : setKey r k v = r := by
  induction r with
  | nil => simp [lookupKey] at h
  | cons kv r ih =>
      by_cases hk : kv.1 = k
      · have : kv.2 = v := by
          simp [lookupKey, hk] at h
          cases kv
          simp_all [lookupKey]
        cases kv
        simp_all [setKey]
      · have hh : lookupKey r k = some v := by
          cases kv; simp_all [lookupKey]
        cases kv
        simp_all [setKey]

theorem hasKey_setKey_self {α : Type} (r : JsRecord α) (k : String) (v : α) :
    hasKey (setKey r k v) k = true := by
  simp [hasKey, lookupKey_setKey_self]

/-- Claim C1: resolving a collision of an acting player with a live item
whose category key equals the current target category (exact string
equality; a null target equals no key) increases that player's score by
exactly 1, and a collision whose key differs from the target (including
a null target) sets the score to max(0, previous score - 1). -/
theorem fruitCollision_score_change (g : GameState) (playerId k : String) (x y s : Int)
    (hp : lookupKey g.playerScores playerId = some (JsNum.num s)) :
    (g.currentTargetFoodId = some k →
       lookupKey (Game.handleFruitCollision g playerId (FoodObj.sprite k x y)).g.playerScores playerId
         = some (JsNum.num (s + 1)))
    ∧ (g.currentTargetFoodId ≠ some k →
       lookupKey (Game.handleFruitCollision g playerId (FoodObj.sprite k x y)).g.playerScores playerId
         = some (JsNum.num (max 0 (s - 1)))) := by
  constructor
  · intro ht
    simp [Game.handleFruitCollision, ht, jsIncOne, hp, lookupKey_setKey_self]
  · intro ht
    simp [Game.handleFruitCollision, ht, jsDecClamp, hp, lookupKey_setKey_self]

/-- Witness for C1: with target "apple", a collision of host (score 0)
with an "apple" item leaves host at score 1. -/
theorem fruitCollision_score_change_witness :
    lookupKey (Game.handleFruitCollision (Game.setTargetFood initialGameState "apple")
        "host" (FoodObj.sprite "apple" 5 6)).g.playerScores "host"
      = some (JsNum.num (0 + 1)) :=
  (fruitCollision_score_change (Game.setTargetFood initialGameState "apple")
    "host" "apple" 5 6 0 rfl).1 rfl

/-- Claim C3: Scoreboard.addPlayer is a no-op when the id is already
present, and in particular a second addPlayer call never resets a score;
the first conjunct states that the second of two consecutive calls
changes nothing, the second that any call on a present id is the
identity. -/
theorem addPlayer_noop_when_present (sb : Scoreboard) (id : String) :
    (sb.addPlayer id).addPlayer id = sb.addPlayer id
    ∧ (hasKey sb.playerScores id = true → sb.addPlayer id = sb) := by
  constructor
  · by_cases h : hasKey sb.playerScores id
    · simp [Scoreboard.addPlayer, h]
    · simp [Scoreboard.addPlayer, h, hasKey_setKey_self]
  · intro h
    simp [Scoreboard.addPlayer, h]

/-- Witness for C3: a ledger holding host with the nonzero score 5 is
unchanged by a further addPlayer call. -/
theorem addPlayer_noop_when_present_witness :
    Scoreboard.addPlayer { playerScores := [("host", 5)] } "host"
      = { playerScores := [("host", 5)] } :=
  (addPlayer_noop_when_present { playerScores := [("host", 5)] } "host").2 rfl

/-- Claim C6: getScore returns 0 for a player id with no ledger entry
(and, being a total function, does not fail). -/
theorem getScore_unknown_id (sb : Scoreboard) (id : String)
    (h : hasKey sb.playerScores id = false) :
    Scoreboard.getScore sb id = 0 := by
  unfold Scoreboard.getScore
  cases hl : lookupKey sb.playerScores id with
  | none => rfl
  | some v => simp [hasKey, hl] at h

/-- Witness for C6: querying an id never added to an empty ledger
yields 0. -/
theorem getScore_unknown_id_witness :
    Scoreboard.getScore { playerScores := [] } "ghost" = 0 :=
  getScore_unknown_id { playerScores := [] } "ghost" rfl

theorem getScore_setKey (r : JsRecord Int) (k k' : String) (v : Int) :
    Scoreboard.getScore { playerScores := setKey r k v } k'
      = if k' = k then v else Scoreboard.getScore { playerScores := r } k' := by
  by_cases h : k' = k
  · subst h; simp [Scoreboard.getScore, lookupKey_setKey_self]
  · simp [Scoreboard.getScore, lookupKey_setKey_ne _ _ _ _ h, h]

/-- The Score Ledger mutations quantified over by the claim: increment
by an arbitrary amount (Scoreboard.incrementScore) and the clamped
decrement of the collision resolver. -/
inductive LedgerOp where
  | increment (id : String) (amount : Int)
  | decrement (id : String)
deriving DecidableEq, Repr

/-- Apply one ledger mutation. -/
def Scoreboard.applyOp (sb : Scoreboard) : LedgerOp → Scoreboard
  | LedgerOp.increment id amount => sb.incrementScore id amount
  | LedgerOp.decrement id => sb.decrementScore id

/-- Apply a sequence of ledger mutations in order. -/
def Scoreboard.applyOps (sb : Scoreboard) (ops : List LedgerOp) : Scoreboard :=
  ops.foldl Scoreboard.applyOp sb

/-- Every player's score reads as nonnegative. -/
def ledgerNonneg (sb : Scoreboard) : Prop := ∀ id, 0 ≤ sb.getScore id

/-- An increment's amount is nonnegative (decrements carry no amount). -/
def LedgerOp.amountNonneg : LedgerOp → Prop
  | LedgerOp.increment _ amount => 0 ≤ amount
  | LedgerOp.decrement _ => True

theorem applyOp_nonneg (sb : Scoreboard) (op : LedgerOp) (hop : op.amountNonneg)
    (h : ledgerNonneg sb) : ledgerNonneg (sb.applyOp op) := by
  cases op with
  | increment id amount =>
      intro id'
      have ha : 0 ≤ amount := hop
      simp only [Scoreboard.applyOp, Scoreboard.incrementScore]
      cases hl : lookupKey sb.playerScores id with
      | some v =>
          have hv : 0 ≤ v := by
            have hh := h id
            simpa [Scoreboard.getScore, hl] using hh
          rw [getScore_setKey]
          by_cases hid : id' = id
          · simpa [hid] using add_nonneg hv ha
          · simpa [hid] using h id'
      | none =>
          rw [getScore_setKey]
          by_cases hid : id' = id
          · simpa [hid] using ha
          · rw [if_neg hid, getScore_setKey, if_neg hid]
            exact h id'
  | decrement id =>
      intro id'
      simp only [Scoreboard.applyOp, Scoreboard.decrementScore]
      rw [getScore_setKey]
      by_cases hid : id' = id
      · simp [hid]
      · simpa [hid] using h id'

/-- Claim C2 (amended): for every player id and every sequence of
increment and decrement mutations whose increment amounts are
nonnegative, applied to a ledger whose scores are all nonnegative,
getScore(id) is nonnegative after every step of the sequence.  (The
unamended claim, over arbitrary amounts, is refuted by
`increment_negative_amount_breaks_nonneg`.) -/
theorem ledger_nonneg_after_every_step (ops : List LedgerOp)
    (hops : ∀ op ∈ ops, op.amountNonneg) (sb : Scoreboard) (hsb : ledgerNonneg sb)
    (n : Nat) : ledgerNonneg (Scoreboard.applyOps sb (ops.take n)) := by
  induction ops generalizing sb n with
  | nil => simpa [Scoreboard.applyOps] using hsb
  | cons op rest ih =>
      cases n with
      | zero => simpa [Scoreboard.applyOps] using hsb
      | succ m =>
          have h1 : op.amountNonneg := hops op (List.mem_cons_self op rest)
          have h2 : ∀ o ∈ rest, o.amountNonneg := fun o ho => hops o (List.mem_cons_of_mem _ ho)
          simpa [Scoreboard.applyOps] using
            ih h2 (sb.applyOp op) (applyOp_nonneg sb op h1 hsb) m

/-- Counterexample to C2 as stated: a single increment with amount -1,
applied to a fresh ledger, drives the queried score below zero (the
source incrementScore applies no clamp). -/
theorem increment_negative_amount_breaks_nonneg :
    ¬ 0 ≤ Scoreboard.getScore
        (Scoreboard.applyOps { playerScores := [] } [LedgerOp.increment "a" (-1)]) "a" := by
  decide

/-- Witness for the amended C2: after the two-step sequence increment
"a" by 1 then decrement "a", the score of "a" is still nonnegative. -/
theorem ledger_nonneg_after_every_step_witness :
    0 ≤ Scoreboard.getScore
        (Scoreboard.applyOps { playerScores := [] }
          ([LedgerOp.increment "a" 1, LedgerOp.decrement "a"].take 2)) "a" :=
  ledger_nonneg_after_every_step [LedgerOp.increment "a" 1, LedgerOp.decrement "a"]
    (by intro op hop; fin_cases hop <;> norm_num [LedgerOp.amountNonneg])
    { playerScores := [] }
    (fun id => by simp [Scoreboard.getScore, lookupKey])
    2 "a"

theorem externalScoreUpdate_cons (sb : Scoreboard) (kv : String × Int) (s : JsRecord Int) :
    Game.externalScoreUpdate sb (kv :: s) = Game.externalScoreUpdate (sb.setScore kv.1 kv.2) s := rfl

theorem lookupKey_externalScoreUpdate_notmem (sb : Scoreboard) (s : JsRecord Int) (k : String)
    (h : k ∉ s.map Prod.fst) :
    lookupKey (Game.externalScoreUpdate sb s).playerScores k = lookupKey sb.playerScores k := by
  induction s generalizing sb with
  | nil => rfl
  | cons kv s ih =>
      have hne : k ≠ kv.1 := by
        intro hk; exact h (by simp [hk])
      have htail : k ∉ s.map Prod.fst := fun hm => h (by simp [hm])
      rw [externalScoreUpdate_cons, ih _ htail]
      simp only [Scoreboard.setScore]
      exact lookupKey_setKey_ne _ _ _ _ hne

theorem lookupKey_externalScoreUpdate_mem (s : JsRecord Int) (k : String) (v : Int) :
    ∀ sb : Scoreboard, (k, v) ∈ s → (s.map Prod.fst).Nodup →
      lookupKey (Game.externalScoreUpdate sb s).playerScores k = some v := by
  induction s with
  | nil => intro sb hm _; cases hm
  | cons kv s ih =>
      intro sb hm hnd
      obtain ⟨a, b⟩ := kv
      simp only [List.map_cons] at hnd
      have hnd2 := List.nodup_cons.mp hnd
      rcases List.mem_cons.mp hm with heq | hmem
      · rw [Prod.mk.injEq] at heq
        obtain ⟨rfl, rfl⟩ := heq
        rw [externalScoreUpdate_cons, lookupKey_externalScoreUpdate_notmem _ _ _ hnd2.1]
        simp only [Scoreboard.setScore]
        exact lookupKey_setKey_self _ _ _
      · rw [externalScoreUpdate_cons]
        exact ih _ hmem hnd2.2

theorem externalScoreUpdate_of_fixed (s : JsRecord Int) :
    ∀ sb : Scoreboard, (∀ kv ∈ s, lookupKey sb.playerScores kv.1 = some kv.2) →
      Game.externalScoreUpdate sb s = sb := by
  induction s with
  | nil => intro sb _; rfl
  | cons kv s ih =>
      intro sb h
      have hh : sb.setScore kv.1 kv.2 = sb := by
        have hset := setKey_of_lookupKey_eq sb.playerScores kv.1 kv.2
          (h kv (List.mem_cons_self _ _))
        cases sb
        simp_all [Scoreboard.setScore]
      rw [externalScoreUpdate_cons, hh]
      exact ih sb fun kv' hm => h kv' (List.mem_cons_of_mem _ hm)

/-- Claim C4: applying the same scoreUpdate snapshot twice in succession
yields a ledger identical to applying it once (a snapshot is a JS object,
so its keys are unique). -/
theorem scoreUpdate_idempotent (sb : Scoreboard) (s : JsRecord Int)
    (hnd : (s.map Prod.fst).Nodup) :
    Game.externalScoreUpdate (Game.externalScoreUpdate sb s) s
      = Game.externalScoreUpdate sb s :=
  externalScoreUpdate_of_fixed s (Game.externalScoreUpdate sb s) fun kv hm => by
    exact lookupKey_externalScoreUpdate_mem s kv.1 kv.2 sb hm hnd

/-- Witness for C4: reapplying the snapshot with A at 3 to a two-player
ledger changes nothing. -/
theorem scoreUpdate_idempotent_witness :
    Game.externalScoreUpdate
        (Game.externalScoreUpdate { playerScores := [("A", 0), ("B", 0)] } [("A", 3)]) [("A", 3)]
      = Game.externalScoreUpdate { playerScores := [("A", 0), ("B", 0)] } [("A", 3)] :=
  scoreUpdate_idempotent { playerScores := [("A", 0), ("B", 0)] } [("A", 3)] (by decide)

/-- Claim C5: applying a scoreUpdate snapshot overwrites the entry of
every id present in the snapshot with the snapshot's value, and leaves
the entry of every absent id unchanged. -/
theorem scoreUpdate_overwrite_and_frame (sb : Scoreboard) (s : JsRecord Int)
    (hnd : (s.map Prod.fst).Nodup) :
    (∀ k v, (k, v) ∈ s →
       lookupKey (Game.externalScoreUpdate sb s).playerScores k = some v)
    ∧ (∀ k, k ∉ s.map Prod.fst →
       lookupKey (Game.externalScoreUpdate sb s).playerScores k = lookupKey sb.playerScores k) :=
  ⟨fun k v hm => lookupKey_externalScoreUpdate_mem s k v sb hm hnd,
   fun k hk => lookupKey_externalScoreUpdate_notmem sb s k hk⟩

/-- Witness for C5: with A and B both at 0 and the snapshot carrying
only A at 3, the ledger becomes A at 3 with B untouched at 0. -/
theorem scoreUpdate_overwrite_and_frame_witness :
    lookupKey (Game.externalScoreUpdate { playerScores := [("A", 0), ("B", 0)] }
        [("A", 3)]).playerScores "A" = some 3
    ∧ lookupKey (Game.externalScoreUpdate { playerScores := [("A", 0), ("B", 0)] }
        [("A", 3)]).playerScores "B" = some 0 :=
  ⟨(scoreUpdate_overwrite_and_frame { playerScores := [("A", 0), ("B", 0)] } [("A", 3)]
      (by decide)).1 "A" 3 (by decide),
   (scoreUpdate_overwrite_and_frame { playerScores := [("A", 0), ("B", 0)] } [("A", 3)]
      (by decide)).2 "B" (by decide)⟩

/-- Claim C7: after n >= 1 successive startSpawningFood calls from the
fresh scene, exactly one spawn timer has been registered: the first call
starts the periodic timer and every later call while it runs is a
no-op. -/
theorem startSpawning_single_timer (n : Nat) (h : 1 ≤ n) :
    (Game.startSpawningFood^[n] initialGameState).activeSpawnTimers = 1
    ∧ ∀ g : GameState, g.foodSpawnTimer = true → Game.startSpawningFood g = g := by
  have hnoop : ∀ g : GameState, g.foodSpawnTimer = true → Game.startSpawningFood g = g := by
    intro g hg; simp [Game.startSpawningFood, hg]
  refine ⟨?_, hnoop⟩
  obtain ⟨m, rfl⟩ : ∃ m, n = m + 1 := ⟨n - 1, (Nat.succ_pred_eq_of_pos h).symm⟩
  rw [Function.iterate_succ_apply]
  have hone : Game.startSpawningFood initialGameState
      = { initialGameState with foodSpawnTimer := true, activeSpawnTimers := 1 } := rfl
  have hfix : ∀ (mm : Nat) (g : GameState), g.foodSpawnTimer = true →
      Game.startSpawningFood^[mm] g = g := by
    intro mm
    induction mm with
    | zero => intro g _; rfl
    | succ mmm ih => intro g hg; rw [Function.iterate_succ_apply, hnoop g hg]; exact ih g hg
  rw [hone, hfix m _ rfl]

/-- Witness for C7: three successive calls leave exactly one registered
spawn timer. -/
theorem startSpawning_single_timer_witness :
    (Game.startSpawningFood^[3] initialGameState).activeSpawnTimers = 1 :=
  (startSpawning_single_timer 3 (by decide)).1

/-- Claim C8: with no send function attached, a collision with a real
item still completes normally: no outbound message is produced, the item
is destroyed, the local scoreUpdate event carries the full post-mutation
snapshot (followed by fruit-eaten), and the acting player's score is
mutated by the match rule. -/
theorem unattached_sender_skips_send (g : GameState) (playerId k : String) (x y s : Int)
    (hs : g.sendMessageAttached = false)
    (hp : lookupKey g.playerScores playerId = some (JsNum.num s)) :
    (Game.handleFruitCollision g playerId (FoodObj.sprite k x y)).msgs = []
    ∧ (Game.handleFruitCollision g playerId (FoodObj.sprite k x y)).destroyed = true
    ∧ (Game.handleFruitCollision g playerId (FoodObj.sprite k x y)).events
        = [GameEvent.scoreUpdate
             (Game.handleFruitCollision g playerId (FoodObj.sprite k x y)).g.playerScores,
           GameEvent.fruitEaten k x y]
    ∧ lookupKey (Game.handleFruitCollision g playerId (FoodObj.sprite k x y)).g.playerScores playerId
        = some (JsNum.num (if g.currentTargetFoodId = some k then s + 1 else max 0 (s - 1))) := by
  by_cases ht : g.currentTargetFoodId = some k
  · simp [Game.handleFruitCollision, ht, hs, jsIncOne, hp, lookupKey_setKey_self]
  · simp [Game.handleFruitCollision, ht, hs, jsDecClamp, hp, lookupKey_setKey_self]

/-- Witness for C8: in the fresh scene (no sender attached), host's
collision with an item sends nothing outbound. -/
theorem unattached_sender_skips_send_witness :
    (Game.handleFruitCollision initialGameState "host" (FoodObj.sprite "apple" 1 2)).msgs = [] :=
  (unattached_sender_skips_send initialGameState "host" "apple" 1 2 0 rfl rfl).1

/-- Counterexample to C9 as stated: the per-player overlap callback,
handed a game object without a texture key, still calls destroy() on it
(the source destroys before the type check), while the claim asserts the
object is not destroyed. -/
theorem malformed_overlap_destroyed_counterexample :
    (Game.playerOverlapCallback initialGameState "p1" (OverlapObj.go FoodObj.plainGO)).destroyed
      = true := rfl

/-- Claim C9 (amended): an overlap with an object that is not a
recognizable item never changes any ledger score and produces no event
and no outbound message; in the hippo overlap path such an object is also
left undestroyed (as are bodies and tiles), but the per-player path
destroys a texture-less game object before its type check. -/
theorem malformed_overlap_skips (g : GameState) (playerId : String) :
    Game.handleFoodCollision g (OverlapObj.go FoodObj.plainGO)
      = { g := g, destroyed := false, events := [], msgs := [] }
    ∧ (∀ ob, Game.handleFoodCollision g (OverlapObj.body ob)
      = { g := g, destroyed := false, events := [], msgs := [] })
    ∧ Game.handleFoodCollision g OverlapObj.tile
      = { g := g, destroyed := false, events := [], msgs := [] }
    ∧ Game.playerOverlapCallback g playerId (OverlapObj.go FoodObj.plainGO)
      = { g := g, destroyed := true, events := [], msgs := [] }
    ∧ Game.playerOverlapCallback g playerId (OverlapObj.body (some FoodObj.plainGO))
      = { g := g, destroyed := true, events := [], msgs := [] }
    ∧ Game.playerOverlapCallback g playerId (OverlapObj.body none)
      = { g := g, destroyed := false, events := [], msgs := [] }
    ∧ Game.playerOverlapCallback g playerId OverlapObj.tile
      = { g := g, destroyed := false, events := [], msgs := [] } := by
  refine ⟨rfl, ?_, rfl, rfl, rfl, rfl, rfl⟩
  intro ob; cases ob <;> rfl

/-- How one step changes the Scoreboard component alone: only addPlayer
and the remote scoreUpdate handler ever touch `this.scoreboard`. -/
def GameAction.scoreboardStep (sb : Scoreboard) : GameAction → Scoreboard
  | GameAction.addPlayer pid _ _ => sb.addPlayer pid
  | GameAction.remoteScoreUpdate s => Game.externalScoreUpdate sb s
  | _ => sb

theorem run_cons (g : GameState) (a : GameAction) (acts : List GameAction) :
    Game.run g (a :: acts)
      = ((Game.run (Game.step g a).1 acts).1,
         (Game.step g a).2 ++ (Game.run (Game.step g a).1 acts).2) := rfl

theorem step_setScoreboard (g : GameState) (sb : Scoreboard) (a : GameAction) :
    Game.step { g with scoreboard := sb } a
      = ({ (Game.step g a).1 with scoreboard := GameAction.scoreboardStep sb a },
         (Game.step g a).2) := by
  cases a with
  | addPlayer pid x y =>
      by_cases hp : pid ∈ g.players <;>
        simp [Game.step, Game.addPlayer, GameAction.scoreboardStep, hp]
  | setTargetFood f => rfl
  | setSendMessage => rfl
  | startSpawningFood =>
      by_cases hf : g.foodSpawnTimer <;>
        simp [Game.step, Game.startSpawningFood, GameAction.scoreboardStep, hf]
  | hippoOverlap obj =>
      cases obj with
      | go o => cases o <;> rfl
      | body ob => cases ob <;> rfl
      | tile => rfl
  | playerOverlap pid obj =>
      cases obj with
      | go o => cases o <;> rfl
      | body ob =>
          cases ob with
          | some o => cases o <;> rfl
          | none => rfl
      | tile => rfl
  | remoteScoreUpdate s => rfl

theorem run_setScoreboard_msgs (acts : List GameAction) :
    ∀ (g : GameState) (sb : Scoreboard),
      (Game.run { g with scoreboard := sb } acts).2 = (Game.run g acts).2 := by
  induction acts with
  | nil => intro g sb; rfl
  | cons a acts ih =>
      intro g sb
      rw [run_cons, run_cons, step_setScoreboard]
      simp only
      rw [ih]

theorem run_setScoreboard_scores (acts : List GameAction) :
    ∀ (g : GameState) (sb : Scoreboard),
      (Game.run { g with scoreboard := sb } acts).1.playerScores
        = (Game.run g acts).1.playerScores := by
  induction acts with
  | nil => intro g sb; rfl
  | cons a acts ih =>
      intro g sb
      rw [run_cons, run_cons, step_setScoreboard]
      simp only
      rw [ih]

theorem run_remote_cons_msgs (g : GameState) (s : JsRecord Int) (acts : List GameAction) :
    (Game.run g (GameAction.remoteScoreUpdate s :: acts)).2 = (Game.run g acts).2 := by
  rw [run_cons]
  simp only [Game.step, List.nil_append]
  exact run_setScoreboard_msgs acts g _

theorem run_remote_cons_scores (g : GameState) (s : JsRecord Int) (acts : List GameAction) :
    (Game.run g (GameAction.remoteScoreUpdate s :: acts)).1.playerScores
      = (Game.run g acts).1.playerScores := by
  rw [run_cons]
  simp only [Game.step]
  exact run_setScoreboard_scores acts g _

theorem run_filter_msgs (acts : List GameAction) :
    ∀ g : GameState,
      (Game.run g acts).2 = (Game.run g (acts.filter fun x => !x.isRemote)).2 := by
  induction acts with
  | nil => intro g; rfl
  | cons a acts ih =>
      intro g
      have hgen : ∀ b : GameAction, b.isRemote = false →
          (Game.run g (b :: acts)).2 = (Game.run g ((b :: acts).filter fun x => !x.isRemote)).2 := by
        intro b hb
        have hf : ((b :: acts).filter fun x => !x.isRemote)
            = b :: (acts.filter fun x => !x.isRemote) := by simp [hb]
        rw [hf, run_cons, run_cons]
        simp only
        rw [ih]
      cases a with
      | remoteScoreUpdate s =>
          have hf : ((GameAction.remoteScoreUpdate s :: acts).filter fun x => !x.isRemote)
              = acts.filter fun x => !x.isRemote := by simp [GameAction.isRemote]
          rw [run_remote_cons_msgs, hf]
          exact ih g
      | addPlayer pid x y => exact hgen _ rfl
      | setTargetFood f => exact hgen _ rfl
      | setSendMessage => exact hgen _ rfl
      | startSpawningFood => exact hgen _ rfl
      | hippoOverlap obj => exact hgen _ rfl
      | playerOverlap pid obj => exact hgen _ rfl

theorem run_filter_scores (acts : List GameAction) :
    ∀ g : GameState,
      (Game.run g acts).1.playerScores
        = (Game.run g (acts.filter fun x => !x.isRemote)).1.playerScores := by
  induction acts with
  | nil => intro g; rfl
  | cons a acts ih =>
      intro g
      have hgen : ∀ b : GameAction, b.isRemote = false →
          (Game.run g (b :: acts)).1.playerScores
            = (Game.run g ((b :: acts).filter fun x => !x.isRemote)).1.playerScores := by
        intro b hb
        have hf : ((b :: acts).filter fun x => !x.isRemote)
            = b :: (acts.filter fun x => !x.isRemote) := by simp [hb]
        rw [hf, run_cons, run_cons]
        simp only
        rw [ih]
      cases a with
      | remoteScoreUpdate s =>
          have hf : ((GameAction.remoteScoreUpdate s :: acts).filter fun x => !x.isRemote)
              = acts.filter fun x => !x.isRemote := by simp [GameAction.isRemote]
          rw [run_remote_cons_scores, hf]
          exact ih g
      | addPlayer pid x y => exact hgen _ rfl
      | setTargetFood f => exact hgen _ rfl
      | setSendMessage => exact hgen _ rfl
      | startSpawningFood => exact hgen _ rfl
      | hippoOverlap obj => exact hgen _ rfl
      | playerOverlap pid obj => exact hgen _ rfl

/-- Claim C10: the outbound snapshots produced by local collisions depend
only on the local (non-remote) action history: two runs from the same
state whose action lists agree after erasing remote scoreUpdate
deliveries produce identical outbound message lists and identical final
Game playerScores records, because remote updates are applied to the
separate Scoreboard store and never merged into the record snapshots are
built from. -/
theorem outbound_independent_of_remote_updates (g : GameState)
    (acts1 acts2 : List GameAction)
    (h : (acts1.filter fun a => !a.isRemote) = (acts2.filter fun a => !a.isRemote)) :
    (Game.run g acts1).2 = (Game.run g acts2).2
    ∧ (Game.run g acts1).1.playerScores = (Game.run g acts2).1.playerScores := by
  constructor
  · rw [run_filter_msgs acts1 g, run_filter_msgs acts2 g, h]
  · rw [run_filter_scores acts1 g, run_filter_scores acts2 g, h]

/-- Witness for C10: a run with two interleaved remote scoreUpdate
deliveries sends exactly the same outbound messages as the run without
them. -/
theorem outbound_independent_of_remote_updates_witness :
    (Game.run initialGameState
        [GameAction.setTargetFood "apple", GameAction.setSendMessage,
         GameAction.hippoOverlap (OverlapObj.go (FoodObj.sprite "apple" 1 2))]).2
      = (Game.run initialGameState
        [GameAction.remoteScoreUpdate [("A", 3)], GameAction.setTargetFood "apple",
         GameAction.setSendMessage, GameAction.remoteScoreUpdate [("host", 99)],
         GameAction.hippoOverlap (OverlapObj.go (FoodObj.sprite "apple" 1 2))]).2 :=
  (outbound_independent_of_remote_updates initialGameState _ _ rfl).1
